import Mathlib

/-!
Shallow embedding of `src/fisscript.py`, an interactive orchestrator around
an external port scanner and a content-discovery tool.  Pure string
manipulation (sanitize_name, clean_url, output parsing, URL construction)
is translated function by function; the filesystem and subprocess layer is
modelled by an explicit outcome type, and Python exception propagation by
`Except`: an uncaught Python exception is an `Except.error` result, a
caught one follows the source's `except` clause.
-/

/-- Python exception classes that the script can raise or catch. -/
inductive PyExc : Type
  | fileNotFoundError
  | valueError
  | permissionError
  | eofError
deriving DecidableEq, Repr

instance {ε α : Type} [DecidableEq ε] [DecidableEq α] : DecidableEq (Except ε α) := fun x y =>
  match x, y with
  | .error a, .error b =>
    if h : a = b then .isTrue (by rw [h]) else .isFalse (fun hc => by cases hc; exact h rfl)
  | .ok a, .ok b =>
    if h : a = b then .isTrue (by rw [h]) else .isFalse (fun hc => by cases hc; exact h rfl)
  | .error _, .ok _ => .isFalse (fun hc => by cases hc)
  | .ok _, .error _ => .isFalse (fun hc => by cases hc)

/-- Characters matching the allowlist class `[a-zA-Z0-9_\-./]` of
`sanitize_name`'s regular expression. -/
def allowedChar (c : Char) : Bool :=
  decide (97 ≤ c.toNat ∧ c.toNat ≤ 122) ||      -- a-z
  decide (65 ≤ c.toNat ∧ c.toNat ≤ 90) ||       -- A-Z
  decide (48 ≤ c.toNat ∧ c.toNat ≤ 57) ||       -- 0-9
  c == '_' || c == '-' || c == '.' || c == '/'

/-- `re.sub(r'[^a-zA-Z0-9_\-./]', '_', name)`: every disallowed character
becomes an underscore. -/
def subDisallowed (l : List Char) : List Char :=
  l.map (fun c => if allowedChar c then c else '_')

/-- Python `str.replace('//', '/')`: one left-to-right pass over the string,
each non-overlapping occurrence of `//` replaced by `/` (the scan resumes
after the replacement, so a run of four slashes leaves two). -/
def replaceDoubleSlash : List Char → List Char
  | '/' :: '/' :: rest => '/' :: replaceDoubleSlash rest
  | c :: rest => c :: replaceDoubleSlash rest
  | [] => []

/-- Python `str.strip('/')`: drop leading and trailing slashes. -/
def stripSlashes (l : List Char) : List Char :=
  ((l.dropWhile (· == '/')).reverse.dropWhile (· == '/')).reverse

/-- `sanitize_name` from the source: allowlist substitution, then the
single `replace('//', '/')` pass, then `strip('/')`. -/
def sanitize_name (s : String) : String :=
  ⟨stripSlashes (replaceDoubleSlash (subDisallowed s.data))⟩

/-- Whether `p` is an initial segment of `l` (character-wise). -/
def leadsWith : List Char → List Char → Bool
  | [], _ => true
  | _ :: _, [] => false
  | a :: as, b :: bs => a == b && leadsWith as bs

/-- `re.sub(r'^https?://', '', url)`: the anchored pattern removes one
leading `http://` or `https://` if present, nothing otherwise. -/
def stripScheme (l : List Char) : List Char :=
  if leadsWith "https://".data l then l.drop 8
  else if leadsWith "http://".data l then l.drop 7
  else l

/-- Python `s.split(m)[0]`: the characters before the first occurrence of
the (single-character) separator, the whole string if absent. -/
def takeBefore (m : Char) (l : List Char) : List Char :=
  l.takeWhile (fun c => c != m)

/-- `clean_url` from the source: strip the scheme, cut at the first `#`,
then at the first `?`, then sanitize. -/
def clean_url (s : String) : String :=
  sanitize_name ⟨takeBefore '?' (takeBefore '#' (stripScheme s.data))⟩

/-- Whether `pat` occurs as a contiguous substring, modelling Python's
`pat in s`. -/
def hasSub (pat : List Char) : List Char → Bool
  | [] => pat.isEmpty
  | c :: rest => leadsWith pat (c :: rest) || hasSub pat rest

/-- Python `pat in s` on strings. -/
def pyContains (s pat : String) : Bool := hasSub pat.data s.data

/-- ASCII whitespace stripped by Python's argument-less `str.strip()`. -/
def isSpaceChar (c : Char) : Bool :=
  c == ' ' || c == '\t' || c == '\n' || c == '\x0d' || c == '\x0b' || c == '\x0c'

/-- Python `str.strip()`: drop leading and trailing whitespace. -/
def pyStrip (l : List Char) : List Char :=
  ((l.dropWhile isSpaceChar).reverse.dropWhile isSpaceChar).reverse

/-- Decimal digit test, `'0' ≤ c ≤ '9'`. -/
def isDigitChar (c : Char) : Bool := decide (48 ≤ c.toNat ∧ c.toNat ≤ 57)

/-- Value of a string of decimal digits. -/
def digitsToNat (l : List Char) : Nat :=
  l.foldl (fun a c => a * 10 + (c.toNat - 48)) 0

/-- Tail of an integer-literal digit group: grouping underscores are
allowed, but only singly and only between digits (PEP 515, Python 3.6+). -/
def pyDigitsTail : List Char → Bool
  | [] => true
  | '_' :: c :: rest => isDigitChar c && pyDigitsTail rest
  | c :: rest => isDigitChar c && pyDigitsTail rest

/-- Body of an unsigned integer literal accepted by Python's `int()`:
a digit followed by digits with optional single grouping underscores
(`"1_0"` is 10, while `"1__0"`, `"_1"` and `"1_"` raise). -/
def pyIntDigits : List Char → Bool
  | [] => false
  | c :: rest => isDigitChar c && pyDigitsTail rest

/-- Python `int(s)` on a string: surrounding whitespace ignored, an
optional sign followed by a digit group with optional single grouping
underscores between digits; `none` models the `ValueError` raised on
anything else.  Non-ASCII decimal digits, which `int()` also accepts,
are outside this embedding's ASCII character scope. -/
def pyInt (l0 : List Char) : Option Int :=
  match pyStrip l0 with
  | '+' :: rest =>
    if pyIntDigits rest then some (digitsToNat (rest.filter (fun c => c != '_'))) else none
  | '-' :: rest =>
    if pyIntDigits rest then some (-(digitsToNat (rest.filter (fun c => c != '_')) : Int))
    else none
  | other =>
    if pyIntDigits other then some (digitsToNat (other.filter (fun c => c != '_'))) else none

/-- `line.split("/")[0].strip()` from the parsing loop. -/
def lineToken (line : String) : List Char := pyStrip (takeBefore '/' line.data)

/-- The parsing loop's line filter:
`"open" in line and ("http" in line or "https" in line)`. -/
def classify (line : String) : Bool :=
  pyContains line "open" && (pyContains line "http" || pyContains line "https")

/-- The body of `parse_nmap_output`'s `for` loop over the file's lines,
accumulating the `web_ports` set; `int(port)` on a non-numeric token
raises `ValueError`, which the `except FileNotFoundError` clause does not
catch. -/
def parseLines (acc : Finset Int) : List String → Except PyExc (Finset Int)
  | [] => .ok acc
  | l :: ls =>
    if classify l then
      match pyInt (lineToken l) with
      | some n => parseLines (insert n acc) ls
      | none => .error .valueError
    else parseLines acc ls

/-- `parse_nmap_output`: a missing file (`none`) raises
`FileNotFoundError`, which is caught and reported, leaving the empty set;
an existing file is scanned line by line. -/
def parse_nmap_output : Option (List String) → Except PyExc (Finset Int)
  | none => .ok ∅
  | some lines => parseLines ∅ lines

/-- A Python value flowing into `run_gobuster`'s `web_ports` parameter:
the nmap-derived path passes `int`s, the content-discovery-only path
passes the raw strings of the comma-split user input. -/
inductive PyVal : Type
  | int (n : Int)
  | str (s : String)
deriving DecidableEq, Repr

/-- Decimal digit character (small case split keeps kernel reduction easy). -/
def digitChar : Nat → Char
  | 0 => '0' | 1 => '1' | 2 => '2' | 3 => '3' | 4 => '4'
  | 5 => '5' | 6 => '6' | 7 => '7' | 8 => '8' | _ => '9'

/-- Decimal digits of `n`, with fuel bounding the recursion depth. -/
def natToDigits : Nat → Nat → List Char
  | 0, _ => []
  | fuel + 1, n =>
    if n < 10 then [digitChar n] else natToDigits fuel (n / 10) ++ [digitChar (n % 10)]

/-- Decimal representation of a natural number, Python `str(n)` for `n ≥ 0`. -/
def natRepr (n : Nat) : String := ⟨natToDigits (n + 1) n⟩

/-- Python `str(n)` on an `int`. -/
def pyIntStr (n : Int) : String :=
  if n < 0 then "-" ++ natRepr n.natAbs else natRepr n.natAbs

/-- Python's f-string interpolation `f"{port}"` of a `web_ports` element. -/
def pyStr : PyVal → String
  | .int n => pyIntStr n
  | .str s => s

/-- `protocol = "https" if port == 443 else "http"`: Python's `==` between
a string and an integer is always `False`, which the derived equality on
`PyVal` mirrors. -/
def gobusterProtocol (port : PyVal) : String :=
  if port = PyVal.int 443 then "https" else "http"

/-- `url = f"{protocol}://{ip_address}:{port}"`. -/
def gobusterUrl (ip : String) (port : PyVal) : String :=
  gobusterProtocol port ++ "://" ++ ip ++ ":" ++ pyStr port

/-- `command = f"gobuster dir -u {url} -w {wordlist}"`. -/
def gobusterCommand (url wordlist : String) : String :=
  "gobuster dir -u " ++ url ++ " -w " ++ wordlist

/-- One completed content-discovery invocation: the URL it targeted, the
wordlist the user was prompted for, and the command line launched. -/
structure GInvoke : Type where
  url : String
  wordlist : String
  command : String
deriving DecidableEq, Repr

/-- The invocation built for one port of `run_gobuster`'s loop. -/
def gobusterStep (ip : String) (p : PyVal) (wl : String) : GInvoke :=
  { url := gobusterUrl ip p
    wordlist := wl
    command := gobusterCommand (gobusterUrl ip p) wl }

/-- Outcome of one scan step's interaction with the filesystem and the
subprocess layer: everything works, `open(..., "w")` raises
`FileNotFoundError` (missing directory) or `PermissionError`, or the
subprocess launch raises `FileNotFoundError` (missing binary). -/
inductive FsOutcome : Type
  | ok
  | openFileNotFound
  | openPermissionDenied
  | execFileNotFound
deriving DecidableEq, Repr

/-- The exception behaviour of `open(output_file, "w")`. -/
def pyOpenWrite : FsOutcome → Except PyExc Unit
  | .openFileNotFound => .error .fileNotFoundError
  | .openPermissionDenied => .error .permissionError
  | _ => .ok ()

/-- The exception behaviour of `subprocess.run(command.split(), ...)`. -/
def pySubprocessRun : FsOutcome → Except PyExc Unit
  | .execFileNotFound => .error .fileNotFoundError
  | _ => .ok ()

/-- `" ".join` of the selected option flags, then the nmap command line. -/
def nmap_command (options : List String) (ip : String) : String :=
  "nmap " ++ String.intercalate " " options ++ " " ++ ip

/-- `os.path.join(output_dir, f"nmap_scan_{sanitized}_{timestamp}.txt")`. -/
def nmap_output_file (output_dir ip timestamp : String) : String :=
  output_dir ++ "/nmap_scan_" ++ clean_url ip ++ "_" ++ timestamp ++ ".txt"

/-- The `try`/`except FileNotFoundError` block of `run_nmap`: only
`FileNotFoundError` from the open or the launch is caught (and reported),
after which control falls through to `return output_file`; any other
exception propagates. -/
def run_nmap_result (fs : FsOutcome) (output_file : String) : Except PyExc String :=
  match pyOpenWrite fs with
  | .error .fileNotFoundError => .ok output_file
  | .error e => .error e
  | .ok _ =>
    match pySubprocessRun fs with
    | .error .fileNotFoundError => .ok output_file
    | .error e => .error e
    | .ok _ => .ok output_file

/-- `run_nmap`: the command line it builds and what it returns (or raises). -/
def run_nmap (ip output_dir timestamp : String) (options : List String)
    (fs : FsOutcome) : String × Except PyExc String :=
  (nmap_command options ip, run_nmap_result fs (nmap_output_file output_dir ip timestamp))

/-- Contents of the nmap output file as the caller later finds it:
`scanLines` when everything worked, an empty file when only the launch
failed (the open already created it), and no file when the open failed. -/
def nmapResultFile (fs : FsOutcome) (scanLines : List String) : Option (List String) :=
  match fs with
  | .ok => some scanLines
  | .execFileNotFound => some []
  | .openFileNotFound => none
  | .openPermissionDenied => none

/-- `run_gobuster`'s loop over `web_ports`: each port prompts for one
wordlist (pairing it with that step's filesystem outcome), builds the URL
and command, and runs the tool inside its own `try`/`except
FileNotFoundError`; a caught error skips the invocation and continues,
any other exception propagates, and an exhausted input stream is the
`EOFError` of `input()` at end of file. -/
def run_gobuster (ip : String) : List PyVal → List (String × FsOutcome) → Except PyExc (List GInvoke)
  | [], _ => .ok []
  | _ :: _, [] => .error .eofError
  | p :: ps, (wl, fs) :: rest =>
    match pyOpenWrite fs with
    | .error .fileNotFoundError => run_gobuster ip ps rest
    | .error e => .error e
    | .ok _ =>
      match pySubprocessRun fs with
      | .error .fileNotFoundError => run_gobuster ip ps rest
      | .error e => .error e
      | .ok _ => (run_gobuster ip ps rest).map (fun out => gobusterStep ip p wl :: out)

/-- Top-level choice "2": `input(...).split(",")` — the tokens are kept as
raw strings, never stripped nor converted to integers. -/
def splitOnComma : List Char → List (List Char)
  | [] => [[]]
  | c :: rest =>
    if c = ',' then [] :: splitOnComma rest
    else
      match splitOnComma rest with
      | [] => [[c]]
      | g :: gs => (c :: g) :: gs

/-- The `web_ports` value built on the content-discovery-only path. -/
def choice2Ports (inp : String) : List PyVal :=
  (splitOnComma inp.data).map (fun l => PyVal.str ⟨l⟩)

/-- Python `str.strip()` on a string. -/
def pyStripStr (s : String) : String := ⟨pyStrip s.data⟩

/-- Python `str.isdigit()` (ASCII digits suffice here). -/
def pyIsdigit (s : String) : Bool := decide (s.data ≠ []) && s.data.all isDigitChar

/-- Python `int(s)` on a string `s` already known to satisfy `isdigit`. -/
def strToInt (s : String) : Int := (digitsToNat s.data : Nat)

/-- The port-selection sub-loop of `main` (identical at both call sites):
state is `(web_ports, gobuster_ports)`; `"done"` leaves the loop, a
digit-string naming an available port moves it from `web_ports` to
`gobuster_ports`, and anything else is rejected with the state unchanged. -/
def selectLoop : List Int × List Int → List String → List Int × List Int
  | st, [] => st
  | st, inp :: rest =>
    if pyStripStr inp = "done" then st
    else if pyIsdigit (pyStripStr inp) ∧ strToInt (pyStripStr inp) ∈ st.1 then
      selectLoop (st.1.erase (strToInt (pyStripStr inp)),
                  st.2 ++ [strToInt (pyStripStr inp)]) rest
    else selectLoop st rest

/-- The boolean line filter unfolded to its propositional form. -/
lemma classify_eq_true_iff (l : String) :
    classify l = true ↔
      pyContains l "open" = true ∧
        (pyContains l "http" = true ∨ pyContains l "https" = true) := by
  simp [classify, Bool.and_eq_true, Bool.or_eq_true]

/-- Membership in a successfully parsed port set: exactly the ports of the
classified lines whose leading token parses, on top of the accumulator. -/
lemma parseLines_ok_mem (lines : List String) :
    ∀ (acc s : Finset Int), parseLines acc lines = Except.ok s →
      ∀ p : Int, p ∈ s ↔
        p ∈ acc ∨ ∃ l ∈ lines, classify l = true ∧ pyInt (lineToken l) = some p := by
  induction lines with
  | nil =>
    intro acc s h p
    have h' : Except.ok (ε := PyExc) acc = Except.ok s := h
    injection h' with h2
    subst h2
    simp
  | cons l ls ih =>
    intro acc s h p
    by_cases hc : classify l = true
    · rcases hp : pyInt (lineToken l) with _ | n
      · simp [parseLines, hc, hp] at h
      · simp only [parseLines, hc, hp, if_true] at h
        rw [ih (insert n acc) s h p]
        constructor
        · rintro (h1 | ⟨l', hl', hcl, hpl⟩)
          · rcases Finset.mem_insert.mp h1 with h2 | h2
            · exact Or.inr ⟨l, List.mem_cons_self l ls, hc, by rw [h2, hp]⟩
            · exact Or.inl h2
          · exact Or.inr ⟨l', List.mem_cons_of_mem _ hl', hcl, hpl⟩
        · rintro (h1 | ⟨l', hl', hcl, hpl⟩)
          · exact Or.inl (Finset.mem_insert_of_mem h1)
          · rcases List.mem_cons.mp hl' with h2 | h2
            · subst h2
              have h3 : n = p := Option.some.inj (hp.symm.trans hpl)
              exact Or.inl (h3 ▸ Finset.mem_insert_self n acc)
            · exact Or.inr ⟨l', h2, hcl, hpl⟩
    · simp only [parseLines, hc, if_false] at h
      rw [ih acc s h p]
      apply or_congr_right
      constructor
      · rintro ⟨l', hl', hcl, hpl⟩
        exact ⟨l', List.mem_cons_of_mem _ hl', hcl, hpl⟩
      · rintro ⟨l', hl', hcl, hpl⟩
        rcases List.mem_cons.mp hl' with h2 | h2
        · subst h2
          exact absurd hcl hc
        · exact ⟨l', h2, hcl, hpl⟩

/-- Cutting at the first `#` and then at the first `?` is cutting at the
first of the two markers. -/
lemma takeBefore_takeBefore (l : List Char) :
    takeBefore '?' (takeBefore '#' l) =
      l.takeWhile (fun c => !(c == '#' || c == '?')) := by
  induction l with
  | nil => rfl
  | cons c t ih =>
    by_cases h1 : c = '#'
    · subst h1
      simp [takeBefore]
    · by_cases h2 : c = '?'
      · subst h2
        simp [takeBefore]
      · simp [takeBefore, h1, h2] at ih ⊢
        exact ih

/-- The port-selection loop keeps the available list duplicate-free and
disjoint from the selected list. -/
lemma selectLoop_inv (inputs : List String) :
    ∀ st : List Int × List Int, st.1.Nodup → (∀ p ∈ st.2, p ∉ st.1) →
      (selectLoop st inputs).1.Nodup ∧
        ∀ p ∈ (selectLoop st inputs).2, p ∉ (selectLoop st inputs).1 := by
  induction inputs with
  | nil =>
    intro st hnd hdisj
    exact ⟨hnd, hdisj⟩
  | cons inp rest ih =>
    intro st hnd hdisj
    by_cases hd : pyStripStr inp = "done"
    · simp only [selectLoop, if_pos hd]
      exact ⟨hnd, hdisj⟩
    · by_cases hc : pyIsdigit (pyStripStr inp) = true ∧ strToInt (pyStripStr inp) ∈ st.1
      · simp only [selectLoop, if_neg hd, if_pos hc]
        apply ih
        · exact hnd.erase _
        · intro p hp hmem
          rcases List.mem_append.mp hp with h2 | h2
          · exact hdisj p h2 (List.mem_of_mem_erase hmem)
          · have h3 : p = strToInt (pyStripStr inp) := List.mem_singleton.mp h2
            subst h3
            exact (hnd.mem_erase_iff.mp hmem).1 rfl
      · simp only [selectLoop, if_neg hd, if_neg hc]
        exact ih st hnd hdisj

/-- A digit string is never the token `"done"`. -/
lemma not_done_of_isdigit (s : String) (h : pyIsdigit s = true) : s ≠ "done" := by
  intro he
  rw [he] at h
  exact absurd h (by decide)

/-- Under an all-`ok` filesystem, the content-discovery loop produces one
invocation per port, in order, pairing the k-th port with the k-th
wordlist prompt. -/
lemma run_gobuster_ok_all (ip : String) (ports : List PyVal) :
    ∀ wls : List String, wls.length = ports.length →
      run_gobuster ip ports (wls.map (fun w => (w, FsOutcome.ok))) =
        Except.ok ((ports.zip wls).map (fun pw => gobusterStep ip pw.1 pw.2)) := by
  induction ports with
  | nil =>
    intro wls _
    simp [run_gobuster]
  | cons p ps ih =>
    intro wls hlen
    cases wls with
    | nil =>
      simp at hlen
    | cons w ws =>
      have h2 : ws.length = ps.length := by simpa using hlen
      simp [run_gobuster, pyOpenWrite, pySubprocessRun, ih ws h2, Except.map]



/-! ## Claim theorems -/

/-- C1: a line of a result file is classified as a candidate web service
exactly when it contains `"open"` and also `"http"` or `"https"`; each such
line's token before the first `/` is parsed as an integer and added to the
returned port set; in particular `"80/tcp open http"` yields `{80}`,
`"22/tcp open ssh"` contributes nothing, and `"443/tcp open https"`
yields `{443}`. -/
theorem C1_parse_classification :
    (∀ (lines : List String) (s : Finset Int),
      parse_nmap_output (some lines) = Except.ok s →
        ∀ p : Int, p ∈ s ↔
          ∃ l ∈ lines,
            (pyContains l "open" = true ∧
              (pyContains l "http" = true ∨ pyContains l "https" = true)) ∧
            pyInt (lineToken l) = some p)
    ∧ parse_nmap_output (some ["80/tcp open http"]) = Except.ok {80}
    ∧ parse_nmap_output (some ["22/tcp open ssh"]) = Except.ok (∅ : Finset Int)
    ∧ parse_nmap_output (some ["443/tcp open https"]) = Except.ok {443} := by
  refine ⟨?_, by decide, by decide, by decide⟩
  intro lines s h p
  have h' : parseLines ∅ lines = Except.ok s := h
  rw [parseLines_ok_mem lines ∅ s h' p]
  simp only [Finset.not_mem_empty, false_or, classify_eq_true_iff]

/-- Witness for C1: the characterization applied to the one-line file
`"80/tcp open http"` puts 80 in the parsed set. -/
theorem C1_parse_classification_witness :
    parse_nmap_output (some ["80/tcp open http"]) = Except.ok {80} ∧
      (80 : Int) ∈ ({80} : Finset Int) := by
  refine ⟨by decide, ?_⟩
  exact ((C1_parse_classification.1 ["80/tcp open http"] {80} (by decide)) 80).mpr
    ⟨"80/tcp open http", by decide, by decide, by decide⟩

/-- C2 (code bug): sanitization is not idempotent, because
`replace('//', '/')` is a single pass; `"a///b"` sanitizes to `"a//b"`,
which sanitizes again to `"a/b"`. -/
theorem C2_sanitize_not_idempotent :
    sanitize_name "a///b" = "a//b" ∧
      sanitize_name (sanitize_name "a///b") = "a/b" ∧
      sanitize_name (sanitize_name "a///b") ≠ sanitize_name "a///b" :=
  ⟨by decide, by decide, by decide⟩

/-- C3 (code bug): a run of four separators collapses only to two, not to
one — the output of `sanitize_name "a////b"` still contains `"//"`,
against the source comment "Ensure no double slashes". -/
theorem C3_sanitize_keeps_double_slash :
    sanitize_name "a////b" = "a//b" ∧
      hasSub "//".data (sanitize_name "a////b").data = true :=
  ⟨by decide, by decide⟩

/-- Counterexample to C4: on the malformed file whose only line is
`"abc/tcp open http"` the parser raises `ValueError` instead of returning
the empty set. -/
theorem C4_counterexample :
    parse_nmap_output (some ["abc/tcp open http"]) = Except.error PyExc.valueError ∧
      parse_nmap_output (some ["abc/tcp open http"]) ≠ Except.ok ∅ :=
  ⟨by decide, by decide⟩

/-- C4 as amended: a missing file yields the empty port set without
raising (reported, not fatal), but the parser is not total on malformed
files: a classified line whose leading token is not a valid integer
literal — such as `"abc/tcp open http"` — makes it raise an uncaught
`ValueError`.  A token that is a valid literal, underscore grouping
included, is still accepted (`"1_0"` parses to 10, as `int()` does). -/
theorem C4_missing_ok_malformed_valueerror :
    parse_nmap_output none = Except.ok ∅ ∧
      parse_nmap_output (some ["abc/tcp open http"]) = Except.error PyExc.valueError ∧
      parse_nmap_output (some ["80/tcp open http", "abc/tcp open http"]) =
        Except.error PyExc.valueError ∧
      parse_nmap_output (some ["1_0/tcp open http"]) = Except.ok {10} :=
  ⟨rfl, by decide, by decide, by decide⟩

/-- C5 (code bug): a `PermissionError` while opening the output file is
not caught by either scan step's `except FileNotFoundError` clause and
propagates as an uncaught fault, in both `run_nmap` and `run_gobuster`. -/
theorem C5_uncaught_permission :
    (run_nmap "host" "outdir" "ts" ["-sS"] FsOutcome.openPermissionDenied).2 =
        Except.error PyExc.permissionError ∧
      run_gobuster "host" [PyVal.int 80] [("wordlist.txt", FsOutcome.openPermissionDenied)] =
        Except.error PyExc.permissionError :=
  ⟨by decide, by decide⟩

/-- C6: URL cleaning strips one leading scheme, truncates at the first `#`
or `?`, and applies the base sanitization; in particular
`clean_url "https://example.com/a?x=1#frag" = "example.com/a"`, and the
scheme is stripped exactly once. -/
theorem C6_clean_url :
    (∀ s : String,
      clean_url s =
        sanitize_name ⟨(stripScheme s.data).takeWhile (fun c => !(c == '#' || c == '?'))⟩)
    ∧ (∀ s : String, stripScheme ("https://" ++ s).data = s.data)
    ∧ (∀ s : String, stripScheme ("http://" ++ s).data = s.data)
    ∧ clean_url "https://example.com/a?x=1#frag" = "example.com/a"
    ∧ clean_url "http://http://a" = "http_/a" := by
  refine ⟨?_, fun _ => rfl, fun _ => rfl, by decide, by decide⟩
  intro s
  unfold clean_url
  rw [takeBefore_takeBefore]

/-- C7: in the port-selection sub-loop, a selected port leaves the
available list, so the selected list and the available list stay disjoint
after any input sequence, and an attempt to enter an already-selected
port is rejected with the state unchanged. -/
theorem C7_select_no_reselect (wp gb : List Int) (inputs : List String)
    (hnd : wp.Nodup) (hdisj : ∀ p ∈ gb, p ∉ wp) :
    (∀ p ∈ (selectLoop (wp, gb) inputs).2, p ∉ (selectLoop (wp, gb) inputs).1)
    ∧ ∀ inp rest, pyIsdigit (pyStripStr inp) = true →
        strToInt (pyStripStr inp) ∈ gb →
        selectLoop (wp, gb) (inp :: rest) = selectLoop (wp, gb) rest := by
  constructor
  · exact (selectLoop_inv inputs (wp, gb) hnd hdisj).2
  · intro inp rest hdig hmem
    have hd : pyStripStr inp ≠ "done" := not_done_of_isdigit _ hdig
    have hnot : ¬(pyIsdigit (pyStripStr inp) = true ∧ strToInt (pyStripStr inp) ∈ wp) :=
      fun hc => hdisj _ hmem hc.2
    simp only [selectLoop, if_neg hd, if_neg hnot]

/-- Witness for C7: with port 80 already selected and 443 still
available, entering `"80"` again is rejected and changes nothing. -/
theorem C7_select_no_reselect_witness :
    selectLoop ([443], [80]) ["80"] = selectLoop ([443], [80]) [] :=
  (C7_select_no_reselect [443] [80] [] (by decide) (by decide)).2 "80" [] (by decide) (by decide)

/-- C8: the three-line result file yields exactly `{80, 443}`; with a
working filesystem the content-discovery loop runs exactly once per port,
strictly in order, one wordlist prompt per port; the URL scheme is
`https` exactly for port 443, giving `http://target:80` and
`https://target:443`. -/
theorem C8_scan_all :
    parse_nmap_output (some ["22/tcp open ssh", "80/tcp open http", "443/tcp open https"]) =
        Except.ok ({80, 443} : Finset Int)
    ∧ (∀ (ip : String) (ports : List PyVal) (wls : List String),
        wls.length = ports.length →
          run_gobuster ip ports (wls.map (fun w => (w, FsOutcome.ok))) =
            Except.ok ((ports.zip wls).map (fun pw => gobusterStep ip pw.1 pw.2)))
    ∧ (∀ p : Int, gobusterProtocol (PyVal.int p) = "https" ↔ p = 443)
    ∧ run_gobuster "target" [PyVal.int 80, PyVal.int 443]
          [("w80", FsOutcome.ok), ("w443", FsOutcome.ok)] =
        Except.ok
          [⟨"http://target:80", "w80", "gobuster dir -u http://target:80 -w w80"⟩,
           ⟨"https://target:443", "w443", "gobuster dir -u https://target:443 -w w443"⟩] := by
  refine ⟨by decide, fun ip ports wls h => run_gobuster_ok_all ip ports wls h, ?_, by decide⟩
  intro p
  by_cases h : p = 443 <;> simp [gobusterProtocol, h]

/-- Witness for C8: the general one-invocation-per-port law at a
single-port instance. -/
theorem C8_scan_all_witness :
    run_gobuster "t" [PyVal.int 80] [("w", FsOutcome.ok)] =
      Except.ok [gobusterStep "t" (PyVal.int 80) "w"] :=
  C8_scan_all.2.1 "t" [PyVal.int 80] ["w"] rfl

/-- C9: on the content-discovery-only path the comma-split tokens stay
raw strings, so the `== 443` test is always false and every URL uses the
`http` scheme — even for the entry `"443"` — and whitespace after a comma
is embedded verbatim in the URL. -/
theorem C9_choice2_raw_strings :
    (∀ s : String, gobusterProtocol (PyVal.str s) = "http")
    ∧ choice2Ports "80, 443" = [PyVal.str "80", PyVal.str " 443"]
    ∧ gobusterUrl "host" (PyVal.str "443") = "http://host:443"
    ∧ run_gobuster "host" (choice2Ports "80, 443") [("w1", FsOutcome.ok), ("w2", FsOutcome.ok)] =
        Except.ok
          [⟨"http://host:80", "w1", "gobuster dir -u http://host:80 -w w1"⟩,
           ⟨"http://host: 443", "w2", "gobuster dir -u http://host: 443 -w w2"⟩] := by
  refine ⟨?_, by decide, by decide, by decide⟩
  intro s
  simp [gobusterProtocol]

/-- Counterexample to C10: when the open fails with `PermissionError` the
port-scan runner does not return the output path at all — it raises — so
the path is not returned unconditionally on open failure. -/
theorem C10_counterexample :
    (run_nmap "host" "outdir" "ts" [] FsOutcome.openPermissionDenied).2 ≠
        Except.ok (nmap_output_file "outdir" "host" "ts") ∧
      (run_nmap "host" "outdir" "ts" [] FsOutcome.openPermissionDenied).2 =
        Except.error PyExc.permissionError :=
  ⟨by decide, by decide⟩

/-- C10 as amended: on every failure the `except FileNotFoundError`
clause does catch — a missing output directory or a missing scanner
binary — the runner still returns the constructed output-file path; the
caller then parses the missing or empty file and gets the empty port set,
indistinguishable from a successful scan that found no web ports. -/
theorem C10_failed_scan_indistinguishable :
    (∀ ip dir ts : String, ∀ opts : List String,
      (run_nmap ip dir ts opts FsOutcome.openFileNotFound).2 =
        Except.ok (nmap_output_file dir ip ts))
    ∧ (∀ ip dir ts : String, ∀ opts : List String,
      (run_nmap ip dir ts opts FsOutcome.execFileNotFound).2 =
        Except.ok (nmap_output_file dir ip ts))
    ∧ (∀ lines : List String,
      parse_nmap_output (nmapResultFile FsOutcome.openFileNotFound lines) = Except.ok ∅)
    ∧ (∀ lines : List String,
      parse_nmap_output (nmapResultFile FsOutcome.execFileNotFound lines) = Except.ok ∅)
    ∧ (∀ lines : List String,
      parse_nmap_output (nmapResultFile FsOutcome.openFileNotFound lines) =
        parse_nmap_output (some ["22/tcp open ssh"])) :=
  ⟨fun _ _ _ _ => rfl, fun _ _ _ _ => rfl, fun _ => rfl, fun _ => rfl, fun _ => rfl⟩
